import Mathlib

/-!
Shallow embedding of the response-orchestration and scheduling engine of the
dc_bot repository (src/main.py): the model-fallback response generator
(`get_ai_response` with `choose_model_based_on_message`), the weather cache
with TTL (`WeatherService.get_weather` / `fetch_weather`), the subscriber set
(`subscribe` / `unsubscribe`), the time-context greeting
(`TimeContext.get_greeting`), the message enhancer
(`MessageHandler.handle_weather_query` / `enhance_message`) and the daily
broadcast scheduler's wake-time computation
(`WeatherScheduler.schedule_weather_broadcast`).

External effects (HTTP calls to the LLM endpoint and the weather provider)
are modelled as explicit oracles: a function from the attempt index (or
fallback level) to `Except String α`, where `Except.error e` stands for any
failure of that call (non-success status, malformed body, or transport
error) and `e` is the error detail that the source interpolates into its log
line.  Sleeps (`asyncio.sleep`) are recorded in an explicit trace of
durations, so that "no delay" and "backoff of 1s then 2s" are provable
statements; the fallback loop in `get_ai_response` contains no sleep call in
the source, so its trace is constantly empty.  Log lines are recorded as a
list of the error details they carry.
-/

/-- Embeds the `WeatherData` dataclass of src/main.py.  Temperatures are
modelled as rationals (the source keeps Python floats rounded to one
decimal); the timestamp is an abstract instant, carried but not inspected by
any formatted output below (`format_message` in the source does not include
it). -/
structure WeatherData where
  location : String
  temperature : ℚ
  feels_like : ℚ
  humidity : ℕ
  description : String
  timestamp : ℤ
deriving DecidableEq, Repr

/-- Embeds `WeatherData.format_message`. -/
def format_message (w : WeatherData) : String :=
  "📍 地點：" ++ w.location ++ "\n" ++
  "🌡️ 溫度：" ++ toString w.temperature ++ "°C\n" ++
  "🌡️ 體感溫度：" ++ toString w.feels_like ++ "°C\n" ++
  "💧 濕度：" ++ toString w.humidity ++ "%\n" ++
  "🌥️ 天氣狀況：" ++ w.description

/-! ## Model fallback ladder (`choose_model_based_on_message`, `get_ai_response`) -/

/-- The fixed ranked `model_sequence` of `choose_model_based_on_message`. -/
def model_sequence : List String :=
  ["llama-3.2-90b-text-preview",
   "llama-3.1-70b-versatile",
   "llama-3.2-11b-text-preview",
   "llama-3.1-8b-instant"]

/-- Embeds `choose_model_based_on_message(msg, fallback_level)`: if
`0 <= fallback_level < len(model_sequence)` it returns
`model_sequence[fallback_level]`, otherwise `model_sequence[-1]`.  The `msg`
argument is accepted (as in the source signature) but never read. -/
def choose_model_based_on_message (msg : String) (fallback_level : ℤ) : String :=
  if 0 ≤ fallback_level ∧ fallback_level < (model_sequence.length : ℤ) then
    model_sequence.getD fallback_level.toNat ""
  else
    model_sequence.getLastD ""

/-- Observable outcome of one `get_ai_response` run: the returned reply, the
models called in order (one entry per request issued to the LLM endpoint),
the sleep trace (durations in seconds of every `asyncio.sleep`/`time.sleep`
executed — the source's fallback loop performs none), and the error details
carried by the log lines emitted. -/
structure AIResult where
  reply : String
  calls : List String
  sleeps : List ℕ
  logs : List String
deriving DecidableEq, Repr

/-- The fixed apology returned by `get_ai_response` when every fallback
level has failed. -/
def apologyReply : String := "非常抱歉，兄長大人...我現在似乎無法正常回應。"

/-- One unrolling of the `while not success and fallback_level <= 3` loop of
`get_ai_response`.  `fuel` is `4 - fallback_level`, so `fuel = 0` is exactly
the loop guard `fallback_level <= 3` failing.  On `Except.ok` the completion
content is stripped (`.strip()`) and returned; on `Except.error` the error
detail is logged and the level advances with no sleep. -/
def aiLoop (provider : ℕ → Except String String) (msg : String) :
    ℕ → ℕ → List String → List String → Option String → AIResult
  | 0, _, calls, logs, lastError =>
      { reply := apologyReply
        calls := calls
        sleeps := []
        logs := logs ++ (lastError.map (fun e => [e])).getD [] }
  | fuel + 1, level, calls, logs, _lastError =>
      let m := choose_model_based_on_message msg (level : ℤ)
      match provider level with
      | Except.ok content =>
          { reply := content.trim
            calls := calls ++ [m]
            sleeps := []
            logs := logs }
      | Except.error e =>
          aiLoop provider msg fuel (level + 1) (calls ++ [m]) (logs ++ [e]) (some e)

/-- Embeds `get_ai_response`: starts at `fallback_level = 0` with
`success = False` and `last_error = None`, where the loop runs while
`fallback_level <= 3`. -/
def get_ai_response (provider : ℕ → Except String String) (msg : String) : AIResult :=
  aiLoop provider msg 4 0 [] [] none

/-! ## Weather cache (`WeatherService.get_weather`) -/

/-- The `cache_duration` field of `WeatherService` (seconds). -/
def cache_duration : ℤ := 1800

/-- The cache fields of `WeatherService`: `cached_data` and `cache_time`
(both `None` at construction).  Times are modelled as integer epoch
seconds. -/
structure CacheState where
  cached_data : Option WeatherData
  cache_time : Option ℤ
deriving DecidableEq, Repr

/-- The `WeatherService` cache state right after construction. -/
def initialCache : CacheState := ⟨none, none⟩

/-- Embeds `WeatherService.get_weather` for a call at epoch time `now` whose
(if needed) `fetch_weather()` would succeed with `fetched`: if
`cached_data is None or cache_time is None or now - cache_time >
cache_duration` the fetch runs and both cache fields are replaced (the
stored `cache_time` is the `current_time` captured before the fetch);
otherwise the cached snapshot is returned untouched.  The returned `Bool` is
`true` iff the upstream fetch was performed. -/
def get_weather (st : CacheState) (now : ℤ) (fetched : WeatherData) :
    WeatherData × CacheState × Bool :=
  let stale : Bool :=
    match st.cached_data, st.cache_time with
    | none, _ => true
    | _, none => true
    | some _, some ct => decide (now - ct > cache_duration)
  if stale then
    (fetched, ⟨some fetched, some now⟩, true)
  else
    ((st.cached_data).getD fetched, st, false)

/-! ## Weather fetch with backoff (`WeatherService.fetch_weather`) -/

/-- Observable outcome of one `fetch_weather` run: `Except.ok` with the
snapshot or `Except.error` with the raised error, the number of provider
calls made, and the sleep trace (seconds). -/
structure FetchResult where
  outcome : Except String WeatherData
  calls : ℕ
  sleeps : List ℕ
deriving Repr

/-- The `max_retries` constant of `fetch_weather`. -/
def max_retries : ℕ := 3

/-- The initial `retry_delay` constant of `fetch_weather` (seconds). -/
def retry_delay : ℕ := 1

/-- One iteration of the `for attempt in range(max_retries)` loop of
`fetch_weather`.  `remaining = max_retries - attempt`, so `remaining = 1` is
exactly the source's `attempt == max_retries - 1` re-raise condition.  On a
failed attempt that is not the last, the source sleeps
`retry_delay * (2 ** attempt)` seconds and retries; the `remaining = 0` case
is the for-loop running out, unreachable from `remaining = max_retries ≥ 1`
because the last attempt either returns or re-raises. -/
def fetchLoop (provider : ℕ → Except String WeatherData) :
    ℕ → ℕ → List ℕ → FetchResult
  | 0, attempt, sleeps => ⟨Except.error "", attempt, sleeps⟩
  | remaining + 1, attempt, sleeps =>
      match provider attempt with
      | Except.ok w => ⟨Except.ok w, attempt + 1, sleeps⟩
      | Except.error e =>
          if remaining = 0 then
            ⟨Except.error e, attempt + 1, sleeps⟩
          else
            fetchLoop provider remaining (attempt + 1)
              (sleeps ++ [retry_delay * 2 ^ attempt])

/-- Embeds `WeatherService.fetch_weather` run against a provider oracle
that maps the attempt index to its result. -/
def fetch_weather (provider : ℕ → Except String WeatherData) : FetchResult :=
  fetchLoop provider max_retries 0 []

/-! ## Subscriber set (`WeatherService.subscribe` / `unsubscribe`) -/

/-- Embeds `WeatherService.subscribe`: `self.subscribers[user_id] = True`.
The source's `Dict[str, bool]` only ever holds `True` values, so its key set
is the subscriber set. -/
def subscribe (subs : Finset String) (user_id : String) : Finset String :=
  insert user_id subs

/-- Embeds `WeatherService.unsubscribe`: deletes the key when present
(a no-op otherwise). -/
def unsubscribe (subs : Finset String) (user_id : String) : Finset String :=
  subs.erase user_id

/-! ## Time context (`TimeContext.get_greeting`) -/

/-- Embeds `TimeContext.get_greeting`, parameterized by the local hour of
the injected clock (`current_time.hour`, in `[0, 24)`). -/
def get_greeting (hour : ℕ) : String :=
  if 5 ≤ hour ∧ hour < 11 then "早安！"
  else if 11 ≤ hour ∧ hour < 13 then "午安！"
  else if 13 ≤ hour ∧ hour < 18 then "下午好！"
  else if 18 ≤ hour ∧ hour < 22 then "晚安！"
  else "夜安！"

/-! ## Message enhancer (`MessageHandler`) -/

/-- Substring test on character lists: `isSubstr n h` is `true` iff `n`
occurs contiguously in `h`.  Embeds Python's `needle in haystack`. -/
def isSubstr (needle : List Char) : List Char → Bool
  | [] => needle.isEmpty
  | c :: rest => needle.isPrefixOf (c :: rest) || isSubstr needle rest

/-- Python's `needle in haystack` on strings. -/
def strContains (haystack needle : String) : Bool :=
  isSubstr needle.data haystack.data

/-- Python's `any(keyword in msg for keyword in kws)`. -/
def anyKeyword (msg : String) (kws : List String) : Bool :=
  kws.any (fun k => strContains msg k)

/-- Python's `msg.lower()`: per-character lowercasing (ASCII letters are the
only cased characters occurring here; CJK characters are unaffected). -/
def strLower (s : String) : String := String.mk (s.data.map Char.toLower)

/-- The `weather_patterns['subscribe']` keyword list of `MessageHandler`. -/
def kwSubscribe : List String := ["訂閱天氣", "天氣訂閱"]

/-- The `weather_patterns['unsubscribe']` keyword list. -/
def kwUnsubscribe : List String := ["取消訂閱", "停止天氣推播"]

/-- The `weather_patterns['temperature']` keyword list. -/
def kwTemperature : List String := ["溫度", "幾度", "熱不熱"]

/-- The `weather_patterns['humidity']` keyword list. -/
def kwHumidity : List String := ["濕度", "溼度", "濕不濕"]

/-- The `weather_patterns['feels_like']` keyword list. -/
def kwFeelsLike : List String := ["體感", "感覺溫度"]

/-- The `weather_patterns['general']` keyword list. -/
def kwGeneral : List String := ["天氣", "天氣如何", "今天天氣"]

/-- The `patterns['high_priority']` keyword list of `enhance_message`. -/
def kwHighPriority : List String := ["幾點", "現在時間", "日期", "幾號"]

/-- The `patterns['low_priority']` keyword list of `enhance_message`
(matched against `msg.lower()`). -/
def kwLowPriority : List String := ["早", "午", "晚", "hi", "hello", "你好", "哈囉"]

/-- The fixed apology `handle_weather_query` returns when the `try` block
around the weather query raises. -/
def weatherErrorReply : String := "抱歉，獲取天氣信息時發生錯誤。"

/-- Outcome of `handle_weather_query`: the optional short-circuit response,
the subscriber set after any mutation, and whether
`weather_service.get_weather()` was reached (i.e. an upstream-facing weather
read was performed). -/
structure WeatherQueryResult where
  response : Option String
  subs : Finset String
  reachedGetWeather : Bool

/-- Embeds `MessageHandler.handle_weather_query(msg, user_id)`.  The result
of the `await self.weather_service.get_weather()` call is the oracle
`weather` (`Except.error` when that call raises).  Note the source reaches
`get_weather()` before testing any weather-topic keyword: only the
subscribe / unsubscribe branches return without it. -/
def handle_weather_query (msg user_id : String)
    (weather : Except String WeatherData) (subs : Finset String) :
    WeatherQueryResult :=
  if anyKeyword msg kwSubscribe then
    ⟨some "已訂閱每日天氣推播！每天早上 6:00 我會告訴你天氣狀況 ⏰",
      subscribe subs user_id, false⟩
  else if anyKeyword msg kwUnsubscribe then
    ⟨some "已取消天氣推播訂閱。", unsubscribe subs user_id, false⟩
  else
    match weather with
    | Except.error _ => ⟨some weatherErrorReply, subs, true⟩
    | Except.ok w =>
        if anyKeyword msg kwTemperature then
          ⟨some ("🌡️ 現在溫度是 " ++ toString w.temperature ++ "°C"), subs, true⟩
        else if anyKeyword msg kwHumidity then
          ⟨some ("💧 現在濕度是 " ++ toString w.humidity ++ "%"), subs, true⟩
        else if anyKeyword msg kwFeelsLike then
          ⟨some ("🌡️ 現在體感溫度是 " ++ toString w.feels_like ++ "°C"), subs, true⟩
        else if anyKeyword msg kwGeneral then
          ⟨some (format_message w), subs, true⟩
        else
          ⟨none, subs, true⟩

/-- The neutral acknowledgement prepended when the greeting debounce window
(1800 s) has not yet elapsed. -/
def neutralAck : String := "你好！"

/-- Outcome of `enhance_message`: the returned string, the handler's
`_last_time_mention` after the call, the subscriber set after the call, and
whether `get_weather()` was reached. -/
structure EnhanceResult where
  reply : String
  last_time_mention : ℤ
  subs : Finset String
  reachedGetWeather : Bool

/-- Embeds `MessageHandler.enhance_message(msg, user_id)` for a handler
whose `_last_time_mention` is `last_time_mention` (0 at construction), at
epoch time `now` (`time.time()`), with local hour `hour` (driving
`get_greeting`), detailed time context string `detailed_ctx`
(`get_detailed_context()`, an opaque clock rendering), and weather oracle
`weather` as in `handle_weather_query`.  A non-`None` weather response is
returned as-is; otherwise high-priority time keywords prepend the detailed
context, low-priority greeting keywords (matched on `msg.lower()`) prepend
`get_greeting` when `now - _last_time_mention > 1800` (updating the
timestamp) and the neutral acknowledgement otherwise, and a match-free
message is returned unchanged. -/
def enhance_message (msg user_id : String)
    (weather : Except String WeatherData) (subs : Finset String)
    (last_time_mention : ℤ) (now : ℤ) (hour : ℕ) (detailed_ctx : String) :
    EnhanceResult :=
  let wq := handle_weather_query msg user_id weather subs
  match wq.response with
  | some r => ⟨r, last_time_mention, wq.subs, wq.reachedGetWeather⟩
  | none =>
      if anyKeyword msg kwHighPriority then
        ⟨detailed_ctx ++ "\n" ++ msg, last_time_mention, wq.subs, wq.reachedGetWeather⟩
      else if anyKeyword (strLower msg) kwLowPriority then
        if now - last_time_mention > 1800 then
          ⟨get_greeting hour ++ " " ++ msg, now, wq.subs, wq.reachedGetWeather⟩
        else
          ⟨neutralAck ++ msg, last_time_mention, wq.subs, wq.reachedGetWeather⟩
      else
        ⟨msg, last_time_mention, wq.subs, wq.reachedGetWeather⟩

/-! ## Broadcast scheduler wake-time computation
     (`WeatherScheduler.schedule_weather_broadcast`) -/

/-- Microseconds per day (`timedelta(days=1)` at `datetime` resolution). -/
def usPerDay : ℕ := 86400000000

/-- 06:00:00.000000 local, in microseconds after local midnight
(`self.broadcast_time = datetime_time(hour=6, minute=0)`). -/
def broadcastTargetUs : ℕ := 21600000000

/-- Embeds the target computation of `schedule_weather_broadcast`: `now` is
the current local wall-clock instant in microseconds since an epoch aligned
to local midnight (Asia/Taipei has a fixed UTC offset and no DST, so day
boundaries are uniform).  `now.replace(hour=6, minute=0, second=0,
microsecond=0)` is the 06:00 instant of the current day; when `now >=
target_time` the target moves to the next day. -/
def nextBroadcastTarget (now : ℕ) : ℕ :=
  let target := (now / usPerDay) * usPerDay + broadcastTargetUs
  if now ≥ target then target + usPerDay else target

/-- Embeds `delay = (target_time - now).total_seconds()` (here in
microseconds, nonnegative by construction of the target). -/
def scheduleDelay (now : ℕ) : ℕ :=
  nextBroadcastTarget now - now

/-! ## Theorems -/

/-- C10: `choose_model_based_on_message` is total, ignores its message
argument, returns the `fallback_level`-th model of the fixed 4-model
sequence for `0 ≤ fallback_level < 4`, and the last (smallest) model for
every level outside that range. -/
theorem c10_choose_model (m1 m2 : String) (lvl : ℤ) :
    choose_model_based_on_message m1 lvl = choose_model_based_on_message m2 lvl ∧
    (lvl = 0 → choose_model_based_on_message m1 lvl = "llama-3.2-90b-text-preview") ∧
    (lvl = 1 → choose_model_based_on_message m1 lvl = "llama-3.1-70b-versatile") ∧
    (lvl = 2 → choose_model_based_on_message m1 lvl = "llama-3.2-11b-text-preview") ∧
    (lvl = 3 → choose_model_based_on_message m1 lvl = "llama-3.1-8b-instant") ∧
    (lvl < 0 ∨ 4 ≤ lvl →
      choose_model_based_on_message m1 lvl = "llama-3.1-8b-instant") := by
  refine ⟨rfl, ?_, ?_, ?_, ?_, ?_⟩
  · rintro rfl; rfl
  · rintro rfl; rfl
  · rintro rfl; rfl
  · rintro rfl; rfl
  · intro h
    have hcond : ¬ (0 ≤ lvl ∧ lvl < (model_sequence.length : ℤ)) := by
      simp only [model_sequence, List.length]
      omega
    simp only [choose_model_based_on_message, if_neg hcond]
    rfl

/-- C10 witness: concrete evaluations at levels 2 and -5. -/
theorem c10_witness :
    choose_model_based_on_message "msg a" 2 = "llama-3.2-11b-text-preview" ∧
    choose_model_based_on_message "msg b" (-5) = "llama-3.1-8b-instant" :=
  ⟨(c10_choose_model "msg a" "" 2).2.2.2.1 rfl,
   (c10_choose_model "msg b" "" (-5)).2.2.2.2.2 (Or.inl (by norm_num))⟩

/-- C6 counterexample: `get_greeting` does not select among six fixed
phrases — there is no 6-element phrase set that both covers every hour in
[0, 24) and is fully attained, because the function's image over those hours
has exactly five elements. -/
theorem c6_counterexample :
    ¬ ∃ S : Finset String, S.card = 6 ∧
      (∀ h : ℕ, h < 24 → get_greeting h ∈ S) ∧
      (∀ s ∈ S, ∃ h : ℕ, h < 24 ∧ get_greeting h = s) := by
  rintro ⟨S, hcard, hmem, hsurj⟩
  have hS : S = (Finset.range 24).image get_greeting := by
    ext s
    constructor
    · intro hs
      obtain ⟨h, hlt, hg⟩ := hsurj s hs
      exact Finset.mem_image.mpr ⟨h, Finset.mem_range.mpr hlt, hg⟩
    · intro hs
      obtain ⟨h, hlt, hg⟩ := Finset.mem_image.mp hs
      exact hg ▸ hmem h (Finset.mem_range.mp hlt)
  have hfive : ((Finset.range 24).image get_greeting).card = 5 := by decide
  rw [hS, hfive] at hcard
  exact absurd hcard (by norm_num)

/-- C6 (amended): for every hour in [0, 24), `get_greeting` is total and
deterministic and returns exactly one of FIVE fixed phrases, selected by the
half-open hour ranges [5,11), [11,13), [13,18), [18,22) and the remaining
late-night hours. -/
theorem c6_greeting (h : ℕ) (hh : h < 24) :
    get_greeting h ∈ ["早安！", "午安！", "下午好！", "晚安！", "夜安！"] ∧
    (5 ≤ h ∧ h < 11 → get_greeting h = "早安！") ∧
    (11 ≤ h ∧ h < 13 → get_greeting h = "午安！") ∧
    (13 ≤ h ∧ h < 18 → get_greeting h = "下午好！") ∧
    (18 ≤ h ∧ h < 22 → get_greeting h = "晚安！") ∧
    (h < 5 ∨ 22 ≤ h → get_greeting h = "夜安！") := by
  interval_cases h <;> decide

/-- C6 witness: the amended claim at hours 7 and 23. -/
theorem c6_witness :
    get_greeting 7 = "早安！" ∧ get_greeting 23 = "夜安！" :=
  ⟨(c6_greeting 7 (by norm_num)).2.1 (by norm_num),
   (c6_greeting 23 (by norm_num)).2.2.2.2.2 (Or.inr (by norm_num))⟩

/-- C7 counterexample: subscribing then unsubscribing an ALREADY-SUBSCRIBED
user does not restore the prior subscriber set — `unsubscribe` deletes the
membership that predated the `subscribe`. -/
theorem c7_counterexample :
    unsubscribe (subscribe ({"a"} : Finset String) "a") "a" ≠ ({"a"} : Finset String) := by
  decide

/-- C7 (amended): subscribe-then-unsubscribe restores the prior subscriber
set when the user was NOT already a member; subscribing an existing member
is a no-op (idempotent membership); for an existing member,
subscribe-then-unsubscribe instead removes the user from the prior set. -/
theorem c7_subscriber_roundtrip (S : Finset String) (u : String) :
    (u ∉ S → unsubscribe (subscribe S u) u = S) ∧
    (u ∈ S → subscribe S u = S) ∧
    (u ∈ S → unsubscribe (subscribe S u) u = S.erase u) := by
  refine ⟨?_, ?_, ?_⟩
  · intro h
    exact Finset.erase_insert h
  · intro h
    exact Finset.insert_eq_self.mpr h
  · intro h
    rw [subscribe, Finset.insert_eq_self.mpr h, unsubscribe]

/-- C7 witness: the amended claim at concrete subscriber sets. -/
theorem c7_witness :
    unsubscribe (subscribe ({"a"} : Finset String) "b") "b" = ({"a"} : Finset String) ∧
    subscribe ({"a"} : Finset String) "a" = ({"a"} : Finset String) :=
  ⟨(c7_subscriber_roundtrip {"a"} "b").1 (by decide),
   (c7_subscriber_roundtrip {"a"} "a").2.1 (by decide)⟩

/-- C9: for every current local time, the scheduler's sleep delay is
strictly positive and at most one day, the wake instant's local wall-clock
time is exactly 06:00, and the target day is tomorrow when now is at or
past today's 06:00 and today otherwise.  (`now` in microseconds of local
wall-clock time since a midnight-aligned epoch; Asia/Taipei has a fixed UTC
offset, so local days are uniform.) -/
theorem c9_broadcast_schedule (now : ℕ) :
    0 < scheduleDelay now ∧
    scheduleDelay now ≤ usPerDay ∧
    (now + scheduleDelay now) % usPerDay = broadcastTargetUs ∧
    (broadcastTargetUs ≤ now % usPerDay →
      nextBroadcastTarget now = (now / usPerDay + 1) * usPerDay + broadcastTargetUs) ∧
    (now % usPerDay < broadcastTargetUs →
      nextBroadcastTarget now = (now / usPerDay) * usPerDay + broadcastTargetUs) := by
  have hdiv := Nat.div_add_mod now usPerDay
  have hlt : now % usPerDay < usPerDay := Nat.mod_lt _ (by norm_num [usPerDay])
  simp only [scheduleDelay, nextBroadcastTarget, usPerDay, broadcastTargetUs] at *
  split_ifs <;> omega

/-- C9 witness: the schedule computation at a pre-06:00 instant and a
post-06:00 instant of the same day. -/
theorem c9_witness :
    0 < scheduleDelay 0 ∧
    nextBroadcastTarget 0 = 21600000000 ∧
    nextBroadcastTarget 30000000000 = 108000000000 :=
  ⟨(c9_broadcast_schedule 0).1,
   by
    have := (c9_broadcast_schedule 0).2.2.2.2 (by norm_num [usPerDay, broadcastTargetUs])
    simpa [usPerDay, broadcastTargetUs] using this,
   by
    have := (c9_broadcast_schedule 30000000000).2.2.2.1 (by norm_num [usPerDay, broadcastTargetUs])
    simpa [usPerDay, broadcastTargetUs] using this⟩

/-- C3: `get_weather` returns the cached snapshot with no provider contact
when `now - cache_time ≤ 1800`, and fetches and replaces both cache fields
otherwise (including the empty-cache case); consequently, starting from the
constructed (empty) cache, two calls within 1800 seconds of each other
perform exactly one upstream fetch (flags `true` then `false`), and a third
call with the clock advanced more than 1800 seconds past the cache time
performs a second fetch. -/
theorem c3_weather_cache (st : CacheState) (w fetched f2 f3 : WeatherData)
    (ct t1 t2 t3 : ℤ) :
    (st.cached_data = some w → st.cache_time = some ct → t1 - ct ≤ 1800 →
      get_weather st t1 fetched = (w, st, false)) ∧
    (st.cache_time = some ct → t1 - ct > 1800 →
      get_weather st t1 fetched = (fetched, ⟨some fetched, some t1⟩, true)) ∧
    get_weather initialCache t1 fetched = (fetched, ⟨some fetched, some t1⟩, true) ∧
    (t2 - t1 ≤ 1800 →
      get_weather ⟨some fetched, some t1⟩ t2 f2 = (fetched, ⟨some fetched, some t1⟩, false)) ∧
    (t3 - t1 > 1800 →
      get_weather ⟨some fetched, some t1⟩ t3 f3 = (f3, ⟨some f3, some t3⟩, true)) := by
  refine ⟨?_, ?_, ?_, ?_, ?_⟩
  · intro hd hc hle
    obtain ⟨d, c⟩ := st
    simp only at hd hc
    subst hd; subst hc
    simp [get_weather, cache_duration, show ¬ (t1 - ct > 1800) by omega]
  · intro hc hgt
    obtain ⟨d, c⟩ := st
    simp only at hc
    subst hc
    cases d with
    | none => simp [get_weather]
    | some d' => simp [get_weather, cache_duration, hgt]
  · simp [get_weather, initialCache]
  · intro hle
    simp [get_weather, cache_duration, show ¬ (t2 - t1 > 1800) by omega]
  · intro hgt
    simp [get_weather, cache_duration, hgt]

/-- C3 witness: cold cache at time 100, second call at 1900 (within TTL,
cached, no fetch), third call at 2000 with the clock at 1901+…, here 1901 ≤
1900+1800 so use 1901 for the cached case and 1901+… for the refetch; the
concrete instants are 100, 1900 (1900-100 ≤ 1800) and 3000 (3000-100 >
1800). -/
theorem c3_witness :
    get_weather initialCache 100 ⟨"臺北市", 25, 26, 60, "晴", 0⟩ =
      (⟨"臺北市", 25, 26, 60, "晴", 0⟩,
       ⟨some ⟨"臺北市", 25, 26, 60, "晴", 0⟩, some 100⟩, true) ∧
    get_weather ⟨some ⟨"臺北市", 25, 26, 60, "晴", 0⟩, some 100⟩ 1900 ⟨"臺北市", 20, 21, 50, "雨", 1⟩ =
      (⟨"臺北市", 25, 26, 60, "晴", 0⟩,
       ⟨some ⟨"臺北市", 25, 26, 60, "晴", 0⟩, some 100⟩, false) ∧
    get_weather ⟨some ⟨"臺北市", 25, 26, 60, "晴", 0⟩, some 100⟩ 3000 ⟨"臺北市", 20, 21, 50, "雨", 1⟩ =
      (⟨"臺北市", 20, 21, 50, "雨", 1⟩,
       ⟨some ⟨"臺北市", 20, 21, 50, "雨", 1⟩, some 3000⟩, true) :=
  ⟨(c3_weather_cache initialCache ⟨"臺北市", 25, 26, 60, "晴", 0⟩
      ⟨"臺北市", 25, 26, 60, "晴", 0⟩ ⟨"臺北市", 20, 21, 50, "雨", 1⟩
      ⟨"臺北市", 20, 21, 50, "雨", 1⟩ 0 100 1900 3000).2.2.1,
   (c3_weather_cache initialCache ⟨"臺北市", 25, 26, 60, "晴", 0⟩
      ⟨"臺北市", 25, 26, 60, "晴", 0⟩ ⟨"臺北市", 20, 21, 50, "雨", 1⟩
      ⟨"臺北市", 20, 21, 50, "雨", 1⟩ 0 100 1900 3000).2.2.2.1 (by norm_num),
   (c3_weather_cache initialCache ⟨"臺北市", 25, 26, 60, "晴", 0⟩
      ⟨"臺北市", 25, 26, 60, "晴", 0⟩ ⟨"臺北市", 20, 21, 50, "雨", 1⟩
      ⟨"臺北市", 20, 21, 50, "雨", 1⟩ 0 100 1900 3000).2.2.2.2 (by norm_num)⟩

/-- C4: `fetch_weather` makes at most 3 provider calls; under a provider
failing every attempt it makes exactly 3 calls, sleeps 1 s then 2 s between
attempts, and raises the last fetch error; under a provider failing twice
then succeeding it makes exactly 3 calls with inter-call delays 1 s then
2 s and returns the successful snapshot. -/
theorem c4_fetch_backoff (provider : ℕ → Except String WeatherData)
    (w : WeatherData) (e : ℕ → String) :
    (fetch_weather provider).calls ≤ 3 ∧
    ((∀ a, a < 3 → provider a = Except.error (e a)) →
      fetch_weather provider = ⟨Except.error (e 2), 3, [1, 2]⟩) ∧
    (provider 0 = Except.error (e 0) → provider 1 = Except.error (e 1) →
      provider 2 = Except.ok w →
      fetch_weather provider = ⟨Except.ok w, 3, [1, 2]⟩) := by
  refine ⟨?_, ?_, ?_⟩
  · rcases h0 : provider 0 with e0 | w0
    · rcases h1 : provider 1 with e1 | w1
      · rcases h2 : provider 2 with e2 | w2
        · simp [fetch_weather, fetchLoop, max_retries, h0, h1, h2]
        · simp [fetch_weather, fetchLoop, max_retries, h0, h1, h2]
      · simp [fetch_weather, fetchLoop, max_retries, h0, h1]
    · simp [fetch_weather, fetchLoop, max_retries, h0]
  · intro hfail
    have h0 := hfail 0 (by norm_num)
    have h1 := hfail 1 (by norm_num)
    have h2 := hfail 2 (by norm_num)
    simp [fetch_weather, fetchLoop, max_retries, retry_delay, h0, h1, h2]
  · intro h0 h1 h2
    simp [fetch_weather, fetchLoop, max_retries, retry_delay, h0, h1, h2]

/-- C4 witness: a provider failing every attempt, and a provider failing
attempts 0 and 1 then succeeding at attempt 2. -/
theorem c4_witness :
    fetch_weather (fun a => Except.error ("err" ++ toString a)) =
      ⟨Except.error ("err" ++ toString 2), 3, [1, 2]⟩ ∧
    fetch_weather (fun a => if a < 2 then Except.error ("err" ++ toString a)
        else Except.ok ⟨"臺北市", 25, 26, 60, "晴", 0⟩) =
      ⟨Except.ok ⟨"臺北市", 25, 26, 60, "晴", 0⟩, 3, [1, 2]⟩ :=
  ⟨(c4_fetch_backoff (fun a => Except.error ("err" ++ toString a))
      ⟨"臺北市", 25, 26, 60, "晴", 0⟩ (fun a => "err" ++ toString a)).2.1
      (fun a _ => rfl),
   (c4_fetch_backoff (fun a => if a < 2 then Except.error ("err" ++ toString a)
        else Except.ok ⟨"臺北市", 25, 26, 60, "晴", 0⟩)
      ⟨"臺北市", 25, 26, 60, "晴", 0⟩ (fun a => "err" ++ toString a)).2.2
      rfl rfl rfl⟩

/-- C1: for every level k in [0,3], when the LLM endpoint fails at every
level below k and succeeds at level k, `get_ai_response` advances one level
per failure (the request trace is exactly the models of levels 0..k, in
order — no model beyond k is called), performs no sleep between tiers, and
returns the level-k completion text trimmed of leading and trailing
whitespace. -/
theorem c1_fallback_ladder (provider : ℕ → Except String String) (msg : String)
    (k : ℕ) (hk : k ≤ 3)
    (hfail : ∀ j, j < k → ∃ e, provider j = Except.error e)
    (t : String) (hok : provider k = Except.ok t) :
    (get_ai_response provider msg).reply = t.trim ∧
    (get_ai_response provider msg).calls =
      (List.range (k + 1)).map (fun l => choose_model_based_on_message msg (l : ℤ)) ∧
    (get_ai_response provider msg).sleeps = [] := by
  interval_cases k
  · simp [get_ai_response, aiLoop, hok, List.range_succ]
  · obtain ⟨e0, h0⟩ := hfail 0 (by norm_num)
    simp [get_ai_response, aiLoop, h0, hok, List.range_succ]
  · obtain ⟨e0, h0⟩ := hfail 0 (by norm_num)
    obtain ⟨e1, h1⟩ := hfail 1 (by norm_num)
    simp [get_ai_response, aiLoop, h0, h1, hok, List.range_succ]
  · obtain ⟨e0, h0⟩ := hfail 0 (by norm_num)
    obtain ⟨e1, h1⟩ := hfail 1 (by norm_num)
    obtain ⟨e2, h2⟩ := hfail 2 (by norm_num)
    simp [get_ai_response, aiLoop, h0, h1, h2, hok, List.range_succ]

/-- C1 witness: a provider failing levels 0–2 and succeeding at level 3
with a completion that needs trimming. -/
theorem c1_witness :
    (get_ai_response (fun l => if l < 3 then Except.error "boom"
        else Except.ok " 你好呀 ") "q").reply = (" 你好呀 ").trim ∧
    (get_ai_response (fun l => if l < 3 then Except.error "boom"
        else Except.ok " 你好呀 ") "q").calls =
      (List.range 4).map (fun l => choose_model_based_on_message "q" (l : ℤ)) ∧
    (get_ai_response (fun l => if l < 3 then Except.error "boom"
        else Except.ok " 你好呀 ") "q").sleeps = [] :=
  c1_fallback_ladder (fun l => if l < 3 then Except.error "boom"
      else Except.ok " 你好呀 ") "q" 3 (by norm_num)
    (fun j hj => ⟨"boom", by interval_cases j <;> rfl⟩) " 你好呀 " rfl

/-- C2: when the endpoint fails at all four fallback levels,
`get_ai_response` returns (it cannot raise — the embedding is a total
function) the single fixed apology string; the reply component is the
constant `apologyReply`, independent of the error details, which appear
only in the log trace (each failure's detail, plus the final
"All models failed" line carrying the last error). -/
theorem c2_exhausted_apology (provider : ℕ → Except String String)
    (msg : String) (e : ℕ → String)
    (hfail : ∀ l, l ≤ 3 → provider l = Except.error (e l)) :
    get_ai_response provider msg =
      { reply := apologyReply
        calls := (List.range 4).map (fun l => choose_model_based_on_message msg (l : ℤ))
        sleeps := []
        logs := [e 0, e 1, e 2, e 3, e 3] } := by
  have h0 := hfail 0 (by norm_num)
  have h1 := hfail 1 (by norm_num)
  have h2 := hfail 2 (by norm_num)
  have h3 := hfail 3 (by norm_num)
  simp [get_ai_response, aiLoop, h0, h1, h2, h3, List.range_succ]

/-- C2 witness: a provider failing at every level with distinct error
details. -/
theorem c2_witness :
    get_ai_response (fun l => Except.error ("E" ++ toString l)) "m" =
      { reply := apologyReply
        calls := (List.range 4).map (fun l => choose_model_based_on_message "m" (l : ℤ))
        sleeps := []
        logs := ["E" ++ toString 0, "E" ++ toString 1, "E" ++ toString 2,
                 "E" ++ toString 3, "E" ++ toString 3] } :=
  c2_exhausted_apology (fun l => Except.error ("E" ++ toString l)) "m"
    (fun l => "E" ++ toString l) (fun l _ => rfl)

/-- `msg` matches none of the `MessageHandler` keyword groups (subscribe,
unsubscribe, the four weather topics, high-priority time, low-priority
greeting on the lowercased message). -/
def noHandlerKeywords (msg : String) : Prop :=
  anyKeyword msg kwSubscribe = false ∧
  anyKeyword msg kwUnsubscribe = false ∧
  anyKeyword msg kwTemperature = false ∧
  anyKeyword msg kwHumidity = false ∧
  anyKeyword msg kwFeelsLike = false ∧
  anyKeyword msg kwGeneral = false ∧
  anyKeyword msg kwHighPriority = false ∧
  anyKeyword (strLower msg) kwLowPriority = false

instance (msg : String) : Decidable (noHandlerKeywords msg) := by
  unfold noHandlerKeywords
  infer_instance

/-- `msg` matches a low-priority greeting keyword and none of the other
`MessageHandler` keyword groups. -/
def greetingOnlyKeywords (msg : String) : Prop :=
  anyKeyword msg kwSubscribe = false ∧
  anyKeyword msg kwUnsubscribe = false ∧
  anyKeyword msg kwTemperature = false ∧
  anyKeyword msg kwHumidity = false ∧
  anyKeyword msg kwFeelsLike = false ∧
  anyKeyword msg kwGeneral = false ∧
  anyKeyword msg kwHighPriority = false ∧
  anyKeyword (strLower msg) kwLowPriority = true

instance (msg : String) : Decidable (greetingOnlyKeywords msg) := by
  unfold greetingOnlyKeywords
  infer_instance

/-- C5 counterexample: for the keyword-free message "zzz", when the weather
fetch fails, `enhance_message` does NOT return the message unchanged (it
returns the fixed weather-error apology); and even when the fetch succeeds,
`get_weather()` is reached without any weather-topic keyword match. -/
theorem c5_counterexample :
    (enhance_message "zzz" "u" (Except.error "boom") ∅ 0 10000 8 "ctx").reply ≠ "zzz" ∧
    (enhance_message "zzz" "u"
      (Except.ok ⟨"臺北市", 25, 26, 60, "晴", 0⟩) ∅ 0 10000 8 "ctx").reachedGetWeather = true := by
  constructor
  · decide
  · rfl

/-- C5 (amended): for every message matching none of the keyword groups,
`handle_weather_query` STILL reaches `get_weather()` (the source calls it
before testing any weather-topic keyword); when that call succeeds the
message passes through `enhance_message` unchanged with no state change,
but when it fails `enhance_message` returns the fixed weather-error apology
instead of the message. -/
theorem c5_passthrough (msg user_id : String) (w : WeatherData) (ew : String)
    (subs : Finset String) (lt now : ℤ) (hour : ℕ) (ctx : String)
    (hkw : noHandlerKeywords msg) :
    enhance_message msg user_id (Except.ok w) subs lt now hour ctx =
      ⟨msg, lt, subs, true⟩ ∧
    (enhance_message msg user_id (Except.error ew) subs lt now hour ctx).reply =
      weatherErrorReply ∧
    (enhance_message msg user_id (Except.error ew) subs lt now hour ctx).reachedGetWeather =
      true := by
  obtain ⟨hs, hu, hte, hhu, hfe, hge, hhi, hlo⟩ := hkw
  refine ⟨?_, ?_, ?_⟩
  · simp [enhance_message, handle_weather_query, hs, hu, hte, hhu, hfe, hge, hhi, hlo]
  · simp [enhance_message, handle_weather_query, hs, hu]
  · simp [enhance_message, handle_weather_query, hs, hu]

/-- C5 witness: the amended claim at the concrete keyword-free message
"zzz". -/
theorem c5_witness :
    enhance_message "zzz" "u" (Except.ok ⟨"臺北市", 25, 26, 60, "晴", 0⟩) ∅ 0 10000 8 "ctx" =
      ⟨"zzz", 0, ∅, true⟩ ∧
    (enhance_message "zzz" "u" (Except.error "boom") ∅ 0 10000 8 "ctx").reply =
      weatherErrorReply :=
  ⟨(c5_passthrough "zzz" "u" ⟨"臺北市", 25, 26, 60, "晴", 0⟩ "boom" ∅ 0 10000 8 "ctx"
      (by decide)).1,
   (c5_passthrough "zzz" "u" ⟨"臺北市", 25, 26, 60, "晴", 0⟩ "boom" ∅ 0 10000 8 "ctx"
      (by decide)).2.1⟩

/-- C8: within one handler instance (debounce timestamp `t0`, with
`t1 - t0 > 1800` so the window is open — at construction `t0 = 0`), of two
greeting-keyword messages handled at `t1` and `t2` with `t2 - t1 ≤ 1800`,
the first reply is prepended with the greeting phrase and the debounce
timestamp becomes `t1`, the second is prepended with the neutral
acknowledgement (no time content) and the timestamp is unchanged; a
greeting-keyword message at `t3` with `t3 - t1 > 1800` is again prepended
with the greeting phrase. -/
theorem c8_greeting_debounce (msg1 msg2 msg3 user_id : String)
    (w1 w2 w3 : WeatherData) (subs : Finset String)
    (t0 t1 t2 t3 : ℤ) (h1 h2 h3 : ℕ) (ctx : String)
    (g1 : greetingOnlyKeywords msg1) (g2 : greetingOnlyKeywords msg2)
    (g3 : greetingOnlyKeywords msg3)
    (ht1 : t1 - t0 > 1800) (ht2 : t2 - t1 ≤ 1800) (ht3 : t3 - t1 > 1800) :
    enhance_message msg1 user_id (Except.ok w1) subs t0 t1 h1 ctx =
      ⟨get_greeting h1 ++ " " ++ msg1, t1, subs, true⟩ ∧
    enhance_message msg2 user_id (Except.ok w2) subs t1 t2 h2 ctx =
      ⟨neutralAck ++ msg2, t1, subs, true⟩ ∧
    enhance_message msg3 user_id (Except.ok w3) subs t1 t3 h3 ctx =
      ⟨get_greeting h3 ++ " " ++ msg3, t3, subs, true⟩ := by
  obtain ⟨s1, u1, te1, hu1, f1, ge1, hi1, lo1⟩ := g1
  obtain ⟨s2, u2, te2, hu2, f2, ge2, hi2, lo2⟩ := g2
  obtain ⟨s3, u3, te3, hu3, f3, ge3, hi3, lo3⟩ := g3
  refine ⟨?_, ?_, ?_⟩
  · simp [enhance_message, handle_weather_query,
      s1, u1, te1, hu1, f1, ge1, hi1, lo1, ht1]
  · simp [enhance_message, handle_weather_query,
      s2, u2, te2, hu2, f2, ge2, hi2, lo2,
      show ¬ (t2 - t1 > 1800) by omega]
  · simp [enhance_message, handle_weather_query,
      s3, u3, te3, hu3, f3, ge3, hi3, lo3, ht3]

/-- C8 witness: three "hi" messages at epoch times 2000, 3000, 4000 from a
fresh handler (timestamp 0). -/
theorem c8_witness :
    enhance_message "hi" "u" (Except.ok ⟨"臺北市", 25, 26, 60, "晴", 0⟩) ∅ 0 2000 8 "ctx" =
      ⟨get_greeting 8 ++ " " ++ "hi", 2000, ∅, true⟩ ∧
    enhance_message "hi" "u" (Except.ok ⟨"臺北市", 25, 26, 60, "晴", 0⟩) ∅ 2000 3000 15 "ctx" =
      ⟨neutralAck ++ "hi", 2000, ∅, true⟩ ∧
    enhance_message "hi" "u" (Except.ok ⟨"臺北市", 25, 26, 60, "晴", 0⟩) ∅ 2000 4000 23 "ctx" =
      ⟨get_greeting 23 ++ " " ++ "hi", 4000, ∅, true⟩ :=
  c8_greeting_debounce "hi" "hi" "hi" "u"
    ⟨"臺北市", 25, 26, 60, "晴", 0⟩ ⟨"臺北市", 25, 26, 60, "晴", 0⟩
    ⟨"臺北市", 25, 26, 60, "晴", 0⟩ ∅ 0 2000 3000 4000 8 15 23 "ctx"
    (by decide) (by decide) (by decide)
    (by norm_num) (by norm_num) (by norm_num)
